import Mathlib

set_option autoImplicit false
set_option maxHeartbeats 1000000

/-!
Shallow embedding of the Jira analytics engine
(`src/analytics/__init__.py`, class `JiraAnalyticsEngine`).

Conventions of the embedding:
* pandas/numpy floating point arithmetic is modelled exactly over `ℚ`;
* a pandas NaN / NaT cell is modelled as `none`;
* a Python exception escaping a function is modelled as `Except.error`,
  while a normally returned `{"error": ...}` dictionary is a value-level
  error constructor;
* external library behavior (date parsing, TextBlob polarity, numpy std,
  sklearn IsolationForest) is a parameter of the model (`ExternalModels`);
* timestamps carry their calendar components as data, since calendar
  arithmetic lives in the external datetime/pandas libraries.
-/

namespace JiraAnalytics

/-- Arithmetic mean of a list of rationals, `0` on the empty list
(used only where the source guarantees a non-empty list). -/
def mean (xs : List ℚ) : ℚ := xs.sum / xs.length

/-- Arithmetic mean that models the pandas skipna mean: `none` on the
empty list, where pandas returns NaN. -/
def meanOpt (xs : List ℚ) : Option ℚ :=
  if xs.isEmpty then none else some (xs.sum / xs.length)

/-- Round half to even to an integer, as Python round does. -/
def rhe (q : ℚ) : ℤ :=
  let f := q.floor
  let r := q - f
  if r < 1/2 then f
  else if 1/2 < r then f + 1
  else if f % 2 = 0 then f else f + 1

/-- Python round(x, 1) modelled over exact rationals. -/
def round1 (q : ℚ) : ℚ := (rhe (q * 10) : ℚ) / 10

/-- Python round(x, 3) modelled over exact rationals. -/
def round3 (q : ℚ) : ℚ := (rhe (q * 1000) : ℚ) / 1000

/-- Python f-string formatting with one decimal place, for the
nonnegative percentages and averages the engine interpolates into
description strings. -/
def fmt1 (q : ℚ) : String :=
  let t := rhe (q * 10)
  toString (t / 10) ++ "." ++ toString (t % 10)

/-- Insert into a sorted list, after all elements that do not compare
strictly greater (so repeated insertion is a stable sort). -/
def insertSorted {α : Type} (lt : α → α → Bool) (x : α) : List α → List α
  | [] => [x]
  | y :: ys => if lt x y then x :: y :: ys else y :: insertSorted lt x ys

/-- Stable insertion sort: elements comparing equal keep their original
relative order. -/
def sortStable {α : Type} (lt : α → α → Bool) (xs : List α) : List α :=
  xs.foldl (fun acc x => insertSorted lt x acc) []

/-- The distinct elements of a list in order of first occurrence
(pandas Series.unique). -/
def uniqueFirst {α : Type} [DecidableEq α] (xs : List α) : List α :=
  xs.foldl (fun acc x => if x ∈ acc then acc else acc ++ [x]) []

/-- pandas value_counts().to_dict(): distinct keys with multiplicities,
sorted by count descending (stable; NaN keys are dropped by the caller). -/
def valueCounts {α : Type} [DecidableEq α] (xs : List α) : List (α × Nat) :=
  sortStable (fun a b => decide (b.2 < a.2)) ((uniqueFirst xs).map (fun k => (k, xs.count k)))

/-- pandas value_counts().sort_index().to_dict(): counts keyed and sorted
ascending by key. -/
def countsSortedByKey {α : Type} [DecidableEq α] (lt : α → α → Bool) (xs : List α) :
    List (α × Nat) :=
  sortStable (fun a b => lt a.1 b.1) ((uniqueFirst xs).map (fun k => (k, xs.count k)))

/-- pandas groupby(key).mean() over (key, value) pairs; keys ascending. -/
def groupMean {α : Type} [DecidableEq α] (lt : α → α → Bool) (pairs : List (α × ℚ)) :
    List (α × ℚ) :=
  sortStable (fun a b => lt a.1 b.1)
    ((uniqueFirst (pairs.map (·.1))).map
      (fun k => (k, mean ((pairs.filter (fun p => p.1 = k)).map (·.2)))))

/-- pandas groupby(key).size() with keys ascending. -/
def groupSize {α : Type} [DecidableEq α] (lt : α → α → Bool) (keys : List α) :
    List (α × Nat) :=
  sortStable (fun a b => lt a.1 b.1) ((uniqueFirst keys).map (fun k => (k, keys.count k)))

/-- Python max(d, key=d.get): the first key attaining the maximal value;
`none` on an empty dict, where max raises ValueError (handled by callers). -/
def argmaxFirst {α : Type} (xs : List (α × Nat)) : Option α :=
  (xs.foldl (fun best p =>
    match best with
    | none => some p
    | some q => if q.2 < p.2 then some p else some q) none).map (·.1)

/-- pandas Series.quantile with linear interpolation; `none` on the empty
list (pandas returns NaN there). -/
def quantileAt (p : ℚ) (vs : List ℚ) : Option ℚ :=
  let s := sortStable (fun a b => decide (a < b)) vs
  match s with
  | [] => none
  | v0 :: _ =>
    let n := s.length
    let pos := p * ((n : ℚ) - 1)
    let i := pos.floor.toNat
    let frac := pos - (i : ℚ)
    let a := s.getD i v0
    let b := s.getD (i + 1) a
    some (a + frac * (b - a))

/-- pandas comparison of a possibly-NaN integer cell with a constant:
NaN compares false. -/
def optGt (o : Option ℤ) (n : ℤ) : Bool :=
  match o with
  | some a => decide (n < a)
  | none => false

/-- One raw issue record as passed to analyze_issues. `none` marks a field
absent from the record (pandas then materializes a NaN cell, or omits the
column when the field is absent from every record). `key` and `summary`
are required of every record by the data model. -/
structure RawIssue where
  key : String
  summary : String
  description : Option String := none
  status : Option String := none
  priority : Option String := none
  assignee : Option String := none
  created : Option String := none
  updated : Option String := none
  issue_type : Option String := none
deriving DecidableEq, Repr

/-- A parsed timestamp with the calendar components pandas derives from
it. `t` is the instant in whole hours; component fields are carried as
data since calendar arithmetic lives in the external datetime library. -/
structure Timestamp where
  t : ℤ
  hour : Nat
  dow : Fin 7
  month : Fin 12
  week : Nat
  monthYear : ℤ
deriving DecidableEq, Repr

/-- External library behavior the engine calls into, modelled as
arbitrary total functions: pd.to_datetime parsing (none = unparsable,
errors=coerce makes it NaT), datetime.now, TextBlob sentiment polarity,
numpy population std, pandas describe() sample std (NaN when one value),
and sklearn IsolationForest.fit_predict (true = anomalous). -/
structure ExternalModels where
  parseDate : String → Option Timestamp
  now : ℤ
  nowWeek : Nat
  polarity : String → ℚ
  npStd : List ℚ → ℚ
  describeStd : List ℚ → Option ℚ
  isoPredict : List (List ℚ) → List Bool

/-- A canonical row produced by _prepare_dataframe. -/
structure Row where
  key : String
  summary : String
  description : String
  status : String
  priority : String
  assignee : String
  issue_type : Option String
  created : Option Timestamp
  updated : Option Timestamp
  resolution_days : Option ℤ
  age_days : Option ℤ
  is_overdue : Bool
deriving DecidableEq, Repr

/-- The prepared dataframe: its rows plus which optional columns exist.
A column exists when at least one input record carried the field;
age_days is always assigned by _prepare_dataframe. -/
structure PreparedDF where
  rows : List Row
  hasCreated : Bool
  hasUpdated : Bool
  hasIssueType : Bool
  hasAgeDays : Bool
deriving DecidableEq, Repr

/-- The resolution_days column exists iff both date columns do. -/
def PreparedDF.hasResolution (df : PreparedDF) : Bool :=
  df.hasCreated && df.hasUpdated

/-- _prepare_dataframe: builds the canonical table from the raw records.
Per row: date parsing with coercion (unparsable gives NaT), then
resolution_days = (updated - created).dt.days (whole-day floor, NaN when
either cell is NaT, column absent unless both date columns exist),
age_days = (now - created).dt.days (NaN where created is NaT, constant 0
when no created column exists), is_overdue = age_days > 30 (NaN compares
false), and fillna defaults for assignee, priority, description, status. -/
def prepareRow (em : ExternalModels) (hasCreated hasUpdated : Bool) (i : RawIssue) : Row :=
  let created := i.created.bind em.parseDate
  let updated := i.updated.bind em.parseDate
  let resolution_days : Option ℤ :=
    if hasCreated && hasUpdated then
      match created, updated with
      | some c, some u => some ((u.t - c.t).fdiv 24)
      | _, _ => none
    else none
  let age_days : Option ℤ :=
    if hasCreated then created.map (fun c => (em.now - c.t).fdiv 24)
    else some 0
  { key := i.key
    summary := i.summary
    description := i.description.getD ""
    status := i.status.getD "Open"
    priority := i.priority.getD "Medium"
    assignee := i.assignee.getD "Unassigned"
    issue_type := i.issue_type
    created := created
    updated := updated
    resolution_days := resolution_days
    age_days := age_days
    is_overdue := optGt age_days 30 }

/-- _prepare_dataframe assembled over all rows. -/
def prepareDataframe (em : ExternalModels) (issues : List RawIssue) : PreparedDF :=
  let hasCreated := issues.any (fun i => i.created.isSome)
  let hasUpdated := issues.any (fun i => i.updated.isSome)
  { rows := issues.map (prepareRow em hasCreated hasUpdated)
    hasCreated := hasCreated
    hasUpdated := hasUpdated
    hasIssueType := issues.any (fun i => i.issue_type.isSome)
    hasAgeDays := true }

/-- Comparison used where pandas sorts string keys ascending. -/
def strLt (a b : String) : Bool := compare a b == Ordering.lt

/-- Weekday names, indexed by pandas dayofweek (0 = Monday). -/
def dayName (d : Fin 7) : String :=
  ["Monday", "Tuesday", "Wednesday", "Thursday", "Friday", "Saturday", "Sunday"].getD d.val ""

/-- Month names, indexed by pandas month minus one. -/
def monthName (m : Fin 12) : String :=
  ["Jan", "Feb", "Mar", "Apr", "May", "Jun", "Jul", "Aug", "Sep", "Oct", "Nov", "Dec"].getD m.val ""

/-- The non-null resolution_days cells of the table, as rationals. -/
def resolutionValues (df : PreparedDF) : List ℚ :=
  df.rows.filterMap (fun r => r.resolution_days.map (fun v => (v : ℚ)))

/-- Result of _calculate_basic_metrics. unassigned_percentage is `none` on
the empty-table branch, whose early-return dict lacks that key. -/
structure BasicMetrics where
  total_issues : Nat
  status_distribution : List (String × Nat)
  priority_distribution : List (String × Nat)
  type_distribution : List (String × Nat)
  avg_resolution_days : ℚ
  median_resolution_days : ℚ
  assignee_distribution : List (String × Nat)
  unassigned_percentage : Option ℚ
  overdue_count : Nat
deriving DecidableEq, Repr

/-- _calculate_basic_metrics. -/
def calculateBasicMetrics (df : PreparedDF) : BasicMetrics :=
  if df.rows.isEmpty then
    { total_issues := 0, status_distribution := [], priority_distribution := []
      type_distribution := [], avg_resolution_days := 0, median_resolution_days := 0
      assignee_distribution := [], unassigned_percentage := none, overdue_count := 0 }
  else
    let total := df.rows.length
    let vs := resolutionValues df
    let avgRaw : ℚ := if df.hasResolution && !vs.isEmpty then mean vs else 0
    let medianRaw : ℚ := if df.hasResolution && !vs.isEmpty then (quantileAt (1/2) vs).getD 0 else 0
    let assigneeCounts := valueCounts (df.rows.map (·.assignee))
    let unassigned := (assigneeCounts.lookup "Unassigned").getD 0
    { total_issues := total
      status_distribution := valueCounts (df.rows.map (·.status))
      priority_distribution := valueCounts (df.rows.map (·.priority))
      type_distribution :=
        if df.hasIssueType then valueCounts (df.rows.filterMap (·.issue_type)) else []
      avg_resolution_days := round1 avgRaw
      median_resolution_days := round1 medianRaw
      assignee_distribution := assigneeCounts
      unassigned_percentage := some (round1 (((unassigned : ℚ) / (total : ℚ)) * 100))
      overdue_count := (df.rows.filter (·.is_overdue)).length }

/-- pandas Series.describe() over a list of values: count, mean, sample
std (external, NaN when a single value), min and quartiles and max. -/
structure DescribeStats where
  count : Nat
  mean : ℚ
  std : Option ℚ
  min : ℚ
  q25 : ℚ
  q50 : ℚ
  q75 : ℚ
  max : ℚ
deriving DecidableEq, Repr

/-- describe() of a numeric series. -/
def describeSeries (em : ExternalModels) (vs : List ℚ) : DescribeStats :=
  { count := vs.length
    mean := mean vs
    std := em.describeStd vs
    min := (quantileAt 0 vs).getD 0
    q25 := (quantileAt (1/4) vs).getD 0
    q50 := (quantileAt (1/2) vs).getD 0
    q75 := (quantileAt (3/4) vs).getD 0
    max := (quantileAt 1 vs).getD 0 }

/-- resolution_time_analysis of _analyze_time_patterns. -/
structure ResolutionTimeStats where
  avg_by_priority : List (String × ℚ)
  avg_by_type : List (String × ℚ)
  resolution_distribution : DescribeStats
deriving DecidableEq, Repr

/-- The dict returned by _analyze_time_patterns on success;
resolution_time_analysis is `none` where the code leaves the empty dict. -/
structure TimePatterns where
  hourly_creation_pattern : List (Nat × Nat)
  daily_creation_pattern : List (String × Nat)
  monthly_creation_trend : List (String × Nat)
  resolution_time_analysis : Option ResolutionTimeStats
  peak_creation_hour : Nat
  peak_creation_day : String
deriving DecidableEq, Repr

/-- Normal return value of _analyze_time_patterns: either the
value-level {"error": ...} dict or the pattern dict. -/
inductive TimeAnalysis where
  | tErr (msg : String)
  | tOk (t : TimePatterns)
deriving DecidableEq, Repr

/-- _analyze_time_patterns. The `Except.error` case models the ValueError
raised by max() on an empty bucket dict when every created cell is NaT. -/
def analyzeTimePatterns (em : ExternalModels) (df : PreparedDF) : Except String TimeAnalysis :=
  if !df.hasCreated then Except.ok (.tErr "No creation date data available")
  else
    let ts := df.rows.filterMap (·.created)
    let hourly := countsSortedByKey (fun a b => decide (a < b)) (ts.map (·.hour))
    let daily := (countsSortedByKey (fun a b => decide (a.val < b.val)) (ts.map (·.dow))).map
      (fun p => (dayName p.1, p.2))
    let monthly := (countsSortedByKey (fun a b => decide (a.val < b.val)) (ts.map (·.month))).map
      (fun p => (monthName p.1, p.2))
    let resolved := df.rows.filter (fun r => r.resolution_days.isSome)
    let resolvedVals := resolved.map (fun r => ((r.resolution_days.getD 0 : ℤ) : ℚ))
    let rta : Option ResolutionTimeStats :=
      if df.hasResolution && !resolved.isEmpty then
        some { avg_by_priority :=
                 groupMean strLt (resolved.map
                   (fun r => (r.priority, ((r.resolution_days.getD 0 : ℤ) : ℚ))))
               avg_by_type :=
                 if df.hasIssueType then
                   groupMean strLt (resolved.filterMap
                     (fun r => r.issue_type.map
                       (fun ty => (ty, ((r.resolution_days.getD 0 : ℤ) : ℚ)))))
                 else []
               resolution_distribution := describeSeries em resolvedVals }
      else none
    match argmaxFirst hourly, argmaxFirst daily with
    | some peakHour, some peakDay =>
        Except.ok (.tOk
          { hourly_creation_pattern := hourly
            daily_creation_pattern := daily
            monthly_creation_trend := monthly
            resolution_time_analysis := rta
            peak_creation_hour := peakHour
            peak_creation_day := peakDay })
    | _, _ => Except.error "max() arg is an empty sequence"

/-- The rows of a given assignee. -/
def assigneeRows (df : PreparedDF) (a : String) : List Row :=
  df.rows.filter (fun r => r.assignee = a)

/-- The non-null resolution_days values of a given assignee. -/
def assigneeResolutionValues (df : PreparedDF) (a : String) : List ℚ :=
  (assigneeRows df a).filterMap (fun r => r.resolution_days.map (fun v => (v : ℚ)))

/-- Per-assignee entry of individual_metrics. avg_resolution_days is
`none` where pandas mean over an all-NaN column yields NaN. -/
structure AssigneeMetrics where
  total_assigned : Nat
  open_issues : Nat
  avg_resolution_days : Option ℚ
  workload_score : Nat
deriving DecidableEq, Repr

/-- The metrics computed for one assignee inside _analyze_team_performance:
Series.mean over resolution_days (skipna, NaN when no non-null cell) when
the column exists, literal 0 otherwise, then round(., 1). -/
def assigneeMetricsFor (df : PreparedDF) (a : String) : AssigneeMetrics :=
  let rowsA := assigneeRows df a
  let avg : Option ℚ :=
    if df.hasResolution then meanOpt (assigneeResolutionValues df a) else some 0
  let openCount :=
    (rowsA.filter (fun r => (["Open", "In Progress", "To Do"] : List String).contains r.status)).length
  { total_assigned := rowsA.length
    open_issues := openCount
    avg_resolution_days := avg.map round1
    workload_score := rowsA.length + openCount * 2 }

/-- Result of _analyze_team_performance. -/
structure TeamPerformance where
  individual_metrics : List (String × AssigneeMetrics)
  monthly_velocity : Nat
  best_performer : Option String
  most_overloaded : Option String
  team_size : Nat
deriving DecidableEq, Repr

/-- Sort key for best_performer: the rounded average when positive,
`none` for the float(\x27inf\x27) sentinel (also the NaN case, since
NaN > 0 is false). -/
def perfKey (m : AssigneeMetrics) : Option ℚ :=
  m.avg_resolution_days.bind (fun v => if 0 < v then some v else none)

/-- Ordering with `none` as plus infinity. -/
def ltOptInf (a b : Option ℚ) : Bool :=
  match a, b with
  | some x, some y => decide (x < y)
  | some _, none => true
  | none, _ => false

/-- Python min(xs, key=k): first element with minimal key. -/
def minByKeyFirst {α : Type} (key : α → Option ℚ) (xs : List α) : Option α :=
  xs.foldl (fun best x =>
    match best with
    | none => some x
    | some b => if ltOptInf (key x) (key b) then some x else some b) none

/-- Python max(xs, key=k): first element with maximal key. -/
def maxByNatFirst {α : Type} (key : α → Nat) (xs : List α) : Option α :=
  xs.foldl (fun best x =>
    match best with
    | none => some x
    | some b => if key b < key x then some x else some b) none

/-- _analyze_team_performance. -/
def analyzeTeamPerformance (em : ExternalModels) (df : PreparedDF) : TeamPerformance :=
  let assignees := (uniqueFirst (df.rows.map (·.assignee))).filter (fun a => a ≠ "Unassigned")
  let metrics := assignees.map (fun a => (a, assigneeMetricsFor df a))
  let velocity :=
    if df.hasUpdated then
      (df.rows.filter (fun r =>
        (match r.updated with
         | some u => decide (em.now - 720 ≤ u.t)
         | none => false)
        && (["Done", "Closed", "Resolved"] : List String).contains r.status)).length
    else 0
  { individual_metrics := metrics
    monthly_velocity := velocity
    best_performer := (minByKeyFirst (fun p => perfKey p.2) metrics).map (·.1)
    most_overloaded := (maxByNatFirst (fun p => p.2.workload_score) metrics).map (·.1)
    team_size := assignees.length }

/-- Python truthiness of text.strip(): some character is non-whitespace. -/
def stripNonempty (s : String) : Bool := s.data.any (fun c => !c.isWhitespace)

/-- Sentiment label and polarity of one row: the concatenated text is
scored when non-blank, otherwise Neutral with polarity 0. -/
def rowSentiment (em : ExternalModels) (r : Row) : String × ℚ :=
  let text := r.summary ++ " " ++ r.description
  if stripNonempty text then
    let p := em.polarity text
    (if (1 : ℚ)/10 < p then "Positive"
     else if p < -(1/10) then "Negative"
     else "Neutral", p)
  else ("Neutral", 0)

/-- The polarity column added by _analyze_sentiment, in row order. -/
def sentimentPolarities (em : ExternalModels) (df : PreparedDF) : List ℚ :=
  df.rows.map (fun r => (rowSentiment em r).2)

/-- np.mean over the polarity column (NaN, i.e. `none`, on an empty table). -/
def sentimentAvg (em : ExternalModels) (df : PreparedDF) : Option ℚ :=
  meanOpt (sentimentPolarities em df)

/-- Projection of the 5 most negative rows. -/
structure NegativeIssue where
  key : String
  summary : String
  sentiment_polarity : ℚ
deriving DecidableEq, Repr

/-- Result of _analyze_sentiment. -/
structure SentimentResult where
  sentiment_distribution : List (String × Nat)
  avg_sentiment_score : Option ℚ
  assignee_sentiment : List (String × ℚ)
  stress_indicators : Nat
  most_negative_issues : List NegativeIssue
  team_mood : String
deriving DecidableEq, Repr

/-- _analyze_sentiment. team_mood compares the unrounded np.mean with
0.05 and -0.05; both comparisons are false for NaN, giving Concerning. -/
def analyzeSentiment (em : ExternalModels) (df : PreparedDF) : SentimentResult :=
  let labels := df.rows.map (fun r => (rowSentiment em r).1)
  let mood :=
    match sentimentAvg em df with
    | some a => if (1 : ℚ)/20 < a then "Good" else if -(1/20) < a then "Neutral" else "Concerning"
    | none => "Concerning"
  { sentiment_distribution := valueCounts labels
    avg_sentiment_score := (sentimentAvg em df).map round3
    assignee_sentiment :=
      (groupMean strLt (df.rows.map (fun r => (r.assignee, (rowSentiment em r).2)))).map
        (fun p => (p.1, round3 p.2))
    stress_indicators := labels.count "Negative"
    most_negative_issues :=
      ((sortStable (fun a b => decide ((rowSentiment em a).2 < (rowSentiment em b).2)) df.rows).take 5).map
        (fun r => { key := r.key, summary := r.summary, sentiment_polarity := (rowSentiment em r).2 })
    team_mood := mood }

/-- One workflow-pathology flag. -/
structure Flag where
  type : String
  description : String
  severity : String
  affected_count : Nat
deriving DecidableEq, Repr

/-- The status-bottleneck rule applied to one (status, count) entry of
value_counts: fires when (count / total) * 100 strictly exceeds 40 and
the status is not terminal; severity High when strictly above 60. -/
def statusFlag (total : Nat) (p : String × Nat) : Option Flag :=
  if ((p.2 : ℚ) / (total : ℚ)) * 100 > 40
      ∧ p.1 ∉ (["Done", "Closed", "Resolved"] : List String) then
    some { type := "Status Bottleneck"
           description := "Too many issues in \x27" ++ p.1 ++ "\x27 status ("
             ++ fmt1 (((p.2 : ℚ) / (total : ℚ)) * 100) ++ "%)"
           severity := if ((p.2 : ℚ) / (total : ℚ)) * 100 > 60 then "High" else "Medium"
           affected_count := p.2 }
  else none

/-- The assignee-overload rule applied to one (assignee, count) entry. -/
def assigneeFlag (avgPer : ℚ) (p : String × Nat) : Option Flag :=
  if p.1 ≠ "Unassigned" ∧ avgPer * 2 < (p.2 : ℚ) then
    some { type := "Assignee Overload"
           description := p.1 ++ " has " ++ toString p.2 ++ " issues (avg: " ++ fmt1 avgPer ++ ")"
           severity := if avgPer * 3 < (p.2 : ℚ) then "High" else "Medium"
           affected_count := p.2 }
  else none

/-- The aging-issues rule: one flag when any row has age_days > 60. -/
def agingFlags (df : PreparedDF) : List Flag :=
  let old := if df.hasAgeDays then df.rows.filter (fun r => optGt r.age_days 60) else []
  if !old.isEmpty then
    [{ type := "Aging Issues"
       description := toString old.length ++ " issues are over 60 days old"
       severity := "Medium"
       affected_count := old.length }]
  else []

/-- The high-priority-delay rule: one flag when any High/Critical/Urgent
row has age_days > 14. -/
def highPriorityFlags (df : PreparedDF) : List Flag :=
  let hp :=
    if df.hasAgeDays then
      df.rows.filter (fun r =>
        (["High", "Critical", "Urgent"] : List String).contains r.priority
          && optGt r.age_days 14)
    else []
  if !hp.isEmpty then
    [{ type := "High Priority Delays"
       description := toString hp.length ++ " high priority issues are over 2 weeks old"
       severity := "Critical"
       affected_count := hp.length }]
  else []

/-- The per-flag advisory string of _generate_bottleneck_recommendations. -/
def recommendationFor (b : Flag) : Option String :=
  if b.type = "Status Bottleneck" then
    some ("Review workflow for \x27" ++ b.description ++ "\x27 - consider breaking down tasks")
  else if b.type = "Assignee Overload" then
    some ("Redistribute workload - " ++ b.description)
  else if b.type = "Aging Issues" then
    some "Review and prioritize old issues - consider closing obsolete ones"
  else if b.type = "High Priority Delays" then
    some "Urgent: Review high priority issues that are delayed"
  else none

/-- _generate_bottleneck_recommendations. -/
def generateBottleneckRecommendations (bs : List Flag) : List String :=
  let recs := bs.filterMap recommendationFor
  if 3 < bs.length then
    recs ++ ["Consider sprint planning review to address multiple bottlenecks"]
  else recs

/-- Result of _detect_bottlenecks. -/
structure BottleneckResult where
  bottlenecks_detected : List Flag
  bottleneck_count : Nat
  critical_count : Nat
  recommendations : List String
deriving DecidableEq, Repr

/-- len(df) divided by the number of distinct non-Unassigned assignees
(evaluated only on the non-raising path). -/
def bottleneckAvgPerAssignee (df : PreparedDF) : ℚ :=
  (df.rows.length : ℚ)
    / (((uniqueFirst (df.rows.map (fun r => r.assignee))).filter
          (fun a => a ≠ "Unassigned")).length : ℚ)

/-- The four rule families of _detect_bottlenecks, concatenated in
source order: status loop, assignee loop, aging, high-priority delays. -/
def allBottleneckFlags (df : PreparedDF) : List Flag :=
  (valueCounts (df.rows.map (fun r => r.status))).filterMap (statusFlag df.rows.length)
    ++ (valueCounts (df.rows.map (fun r => r.assignee))).filterMap
         (assigneeFlag (bottleneckAvgPerAssignee df))
    ++ agingFlags df ++ highPriorityFlags df

/-- _detect_bottlenecks. The Except.error case is the unguarded
ZeroDivisionError: len(df) is divided by the number of distinct
non-Unassigned assignees, which can be zero. The emptiness test is
hoisted in front of the (exception-free) status loop, which is
observationally equivalent to the source order since the function
returns nothing before the division. -/
def detectBottlenecks (df : PreparedDF) : Except String BottleneckResult :=
  if ((uniqueFirst (df.rows.map (fun r => r.assignee))).filter
        (fun a => a ≠ "Unassigned")).isEmpty then
    Except.error "ZeroDivisionError: float division by zero"
  else
    Except.ok
      { bottlenecks_detected := allBottleneckFlags df
        bottleneck_count := (allBottleneckFlags df).length
        critical_count := ((allBottleneckFlags df).filter (fun b => b.severity = "Critical")).length
        recommendations := generateBottleneckRecommendations (allBottleneckFlags df) }

/-- The priority encoding map, unmapped values defaulting to 2. -/
def priorityScore (p : String) : ℚ :=
  if p = "Low" then 1
  else if p = "Medium" then 2
  else if p = "High" then 3
  else if p = "Critical" then 4
  else if p = "Urgent" then 5
  else 2

/-- One feature row of X = [age_days, priority_score, summary_length,
has_description] after fillna(0); the boolean column is 0/1 numeric. -/
def featureRow (r : Row) : List ℚ :=
  [((r.age_days.getD 0 : ℤ) : ℚ), priorityScore r.priority,
   (r.summary.length : ℚ), if 0 < r.description.length then 1 else 0]

/-- The feature matrix handed to the model. -/
def featureMatrix (df : PreparedDF) : List (List ℚ) := df.rows.map featureRow

/-- The is_blocker proxy label column: resolution_days strictly above its
75th percentile when that column exists (NaN cells label False), else
age_days > 30 (NaN compares false). -/
def blockerLabels (df : PreparedDF) : List Bool :=
  if df.hasResolution then
    let q := quantileAt (3/4) (resolutionValues df)
    df.rows.map (fun r =>
      match r.resolution_days, q with
      | some v, some qv => decide (qv < (v : ℚ))
      | _, _ => false)
  else df.rows.map (fun r => optGt r.age_days 30)

/-- Result of _predict_potential_blockers: a value-level error dict, or a
successful fit. The trained constructor carries the exact feature matrix
and labels handed to sklearn, whose fitting and scoring are external. -/
inductive PredictResult where
  | pErr (msg : String)
  | trained (x : List (List ℚ)) (y : List Bool)
deriving DecidableEq, Repr

/-- _predict_potential_blockers up to the RandomForest fit; the guards
(minimum rows, non-empty features, both label classes) are modelled
exactly, in source order. -/
def predictPotentialBlockers (df : PreparedDF) : PredictResult :=
  if df.rows.length < 10 then .pErr "Insufficient data for predictions"
  else
    let x := featureMatrix df
    let y := blockerLabels df
    if x.isEmpty || x.length < 5 then .pErr "Insufficient feature data"
    else if y.any (fun b => b) && y.any (fun b => !b) then .trained x y
    else .pErr "Insufficient class diversity for prediction"

/-- Projection of one flagged anomalous row; the resolution_days field is
absent (outer `none`) when the table has no such column. -/
structure AnomalyRecord where
  key : String
  summary : String
  assignee : String
  status : String
  age_days : Option ℤ
  resolution_days : Option (Option ℤ)
deriving DecidableEq, Repr

/-- Result of _detect_anomalies. -/
inductive AnomalyResult where
  | aErr (msg : String)
  | aOk (anomalies_detected : List AnomalyRecord) (anomaly_count : Nat) (anomaly_percentage : ℚ)
deriving DecidableEq, Repr

/-- The numeric feature columns _detect_anomalies selects: age_days when
that column exists, resolution_days when that column exists, and the
always-appended summary_length. -/
def anomalyFeatures (df : PreparedDF) : List String :=
  (if df.hasAgeDays then ["age_days"] else [])
    ++ (if df.hasResolution then ["resolution_days"] else [])
    ++ ["summary_length"]

/-- One row of the anomaly feature matrix, with fillna(0). -/
def anomalyFeatureRow (df : PreparedDF) (r : Row) : List ℚ :=
  (if df.hasAgeDays then [((r.age_days.getD 0 : ℤ) : ℚ)] else [])
    ++ (if df.hasResolution then [((r.resolution_days.getD 0 : ℤ) : ℚ)] else [])
    ++ [(r.summary.length : ℚ)]

/-- _detect_anomalies. The insufficient-features guard is modelled
exactly; the branch after it models the try/except converting the
sklearn exception on an empty input matrix into the failure dict. -/
def detectAnomalies (em : ExternalModels) (df : PreparedDF) : AnomalyResult :=
  if (anomalyFeatures df).length < 2 then
    .aErr "Insufficient numeric features for anomaly detection"
  else if df.rows.isEmpty then
    .aErr "Anomaly detection failed: found array with 0 samples"
  else
    let x := df.rows.map (anomalyFeatureRow df)
    let labels := em.isoPredict x
    let isAnomaly := (List.range df.rows.length).map (fun i => labels.getD i false)
    let flagged := ((df.rows.zip isAnomaly).filter (fun p => p.2)).map (·.1)
    .aOk
      ((flagged.take 10).map (fun r =>
        { key := r.key, summary := r.summary, assignee := r.assignee, status := r.status
          age_days := r.age_days
          resolution_days := if df.hasResolution then some r.resolution_days else none }))
      flagged.length
      (round1 (((flagged.length : ℚ) / (df.rows.length : ℚ)) * 100))

/-- Result of _analyze_trends. -/
inductive TrendResult where
  | tdErr (msg : String)
  | tdOk (weekly_creation_trend : List (Nat × Nat))
      (monthly_creation_trend : List (String × Nat))
      (trend_direction : String) (current_week_issues : Nat)
deriving DecidableEq, Repr

/-- _analyze_trends. groupby drops NaT keys; weekly and monthly maps are
keyed ascending; month Period keys are rendered via toString of the
period index carried by the timestamp model. -/
def analyzeTrends (em : ExternalModels) (df : PreparedDF) : TrendResult :=
  if !df.hasCreated then .tdErr "No date data available for trend analysis"
  else
    let ts := df.rows.filterMap (·.created)
    let weekly := groupSize (fun a b => decide (a < b)) (ts.map (·.week))
    let monthly := (groupSize (fun a b => decide (a < b)) (ts.map (·.monthYear))).map
      (fun p => (toString p.1, p.2))
    let recent := weekly.drop (weekly.length - 4)
    let direction :=
      if 2 ≤ recent.length then
        if (recent.headD (0, 0)).2 < (recent.getLastD (0, 0)).2 then "Increasing" else "Decreasing"
      else "Stable"
    .tdOk weekly monthly direction ((weekly.lookup em.nowWeek).getD 0)

/-- Success payload of _analyze_workload_distribution. -/
structure WorkloadStats where
  current_workload : List (String × Nat)
  avg_workload_per_person : ℚ
  workload_std_dev : ℚ
  balance_score : ℚ
  balance_rating : String
  overloaded_members : List (String × Nat)
  underloaded_members : List (String × Nat)
  total_open_issues : Nat
deriving DecidableEq, Repr

/-- Result of _analyze_workload_distribution. -/
inductive WorkloadResult where
  | wErr (msg : String)
  | wOk (stats : WorkloadStats)
deriving DecidableEq, Repr

/-- _analyze_workload_distribution; np.std is external (irrational in
general) and supplied by ExternalModels. -/
def analyzeWorkloadDistribution (em : ExternalModels) (df : PreparedDF) : WorkloadResult :=
  let openRows := df.rows.filter (fun r =>
    (["Open", "In Progress", "To Do", "New"] : List String).contains r.status)
  let workload := valueCounts (openRows.map (·.assignee))
  let assigned := workload.filter (fun p => p.1 ≠ "Unassigned")
  if assigned.isEmpty then .wErr "No assigned issues found"
  else
    let vals := assigned.map (fun p => ((p.2 : ℚ)))
    let avg := mean vals
    let sd := em.npStd vals
    let balance := if 0 < avg then sd / avg else 1
    .wOk { current_workload := workload
           avg_workload_per_person := round1 avg
           workload_std_dev := round1 sd
           balance_score := round3 balance
           balance_rating :=
             if balance < 3/10 then "Good" else if balance < 6/10 then "Fair" else "Poor"
           overloaded_members := assigned.filter (fun p => avg + sd < (p.2 : ℚ))
           underloaded_members := assigned.filter (fun p => (p.2 : ℚ) < avg - sd)
           total_open_issues := openRows.length }

/-- The recognized analysis options; `none` models an absent dict key. -/
structure AnalysisOptions where
  enable_sentiment_analysis : Option Bool := none
  enable_predictive_analytics : Option Bool := none
  enable_bottleneck_detection : Option Bool := none
deriving DecidableEq, Repr

/-- options.get(name, True); when the caller passes None the code builds
a defaults dict with every flag True, so unset behaves as True either way. -/
def optFlag (options : Option AnalysisOptions) (f : AnalysisOptions → Option Bool) : Bool :=
  match options with
  | none => true
  | some m => (f m).getD true

/-- The assembled result map of analyze_issues; the conditional analyses
are `none` when their key is absent. -/
structure Report where
  basic_metrics : BasicMetrics
  time_analysis : TimeAnalysis
  team_performance : TeamPerformance
  workload_distribution : WorkloadResult
  trend_analysis : TrendResult
  sentiment_analysis : Option SentimentResult
  bottleneck_detection : Option BottleneckResult
  predictive_insights : Option PredictResult
  anomaly_detection : Option AnomalyResult
deriving DecidableEq, Repr

/-- Top-level return of analyze_issues: either the single error map of
the empty-batch short circuit, or the report map. -/
inductive AnalysisResult where
  | topErr (msg : String)
  | report (r : Report)
deriving DecidableEq, Repr

/-- analyze_issues: the empty-batch short circuit, then the sub-analyses
in source order. Exceptions escaping a sub-analysis (Except.error) abort
the whole call exactly as in the source, which has no try/except around
the sub-analysis calls. -/
def assembleReport (em : ExternalModels) (df : PreparedDF)
    (options : Option AnalysisOptions) (time : TimeAnalysis)
    (bottleneck : Option BottleneckResult) : Report :=
  { basic_metrics := calculateBasicMetrics df
    time_analysis := time
    team_performance := analyzeTeamPerformance em df
    workload_distribution := analyzeWorkloadDistribution em df
    trend_analysis := analyzeTrends em df
    sentiment_analysis :=
      if optFlag options (fun o => o.enable_sentiment_analysis) then
        some (analyzeSentiment em df)
      else none
    bottleneck_detection := bottleneck
    predictive_insights :=
      if optFlag options (fun o => o.enable_predictive_analytics) then
        some (predictPotentialBlockers df)
      else none
    anomaly_detection :=
      if optFlag options (fun o => o.enable_predictive_analytics) then
        some (detectAnomalies em df)
      else none }

/-- analyze_issues continued: the dict assembly is assembleReport. -/
def analyzeIssues (em : ExternalModels) (issues : List RawIssue)
    (options : Option AnalysisOptions) : Except String AnalysisResult :=
  if issues.isEmpty then Except.ok (.topErr "No issues to analyze")
  else
    match analyzeTimePatterns em (prepareDataframe em issues) with
    | Except.error e => Except.error e
    | Except.ok time =>
      match (if optFlag options (fun o => o.enable_bottleneck_detection) then
               (detectBottlenecks (prepareDataframe em issues)).map some
             else Except.ok none) with
      | Except.error e => Except.error e
      | Except.ok bottleneck =>
        Except.ok (.report (assembleReport em (prepareDataframe em issues) options time bottleneck))

/-- A concrete external-model instantiation for concrete evaluations:
nothing parses, polarity 0, std 0, no anomalies. -/
def emTest : ExternalModels :=
  { parseDate := fun _ => none, now := 0, nowWeek := 1, polarity := fun _ => 0
    npStd := fun _ => 0, describeStd := fun _ => none, isoPredict := fun _ => [] }

/-- A sentiment scorer that rates every text exactly -0.05, the boundary
of the team_mood rule. -/
def emNeg : ExternalModels := { emTest with polarity := fun _ => -(1/20) }

/-- A fixed parsed timestamp. -/
def tsZero : Timestamp := { t := 0, hour := 0, dow := 0, month := 0, week := 1, monthYear := 0 }

/-- An external model whose date parser accepts everything. -/
def emParse : ExternalModels := { emTest with parseDate := fun _ => some tsZero }

/-- A record with only the required fields: assignee missing. -/
def issPlain : RawIssue := { key := "T-1", summary := "alpha" }

/-- A record assigned to alice, otherwise minimal. -/
def issAlice : RawIssue := { key := "T-2", summary := "alpha", assignee := some "alice" }

/-- A record whose created field does not parse. -/
def issBadDate : RawIssue :=
  { key := "T-3", summary := "alpha", created := some "not-a-date", assignee := some "alice" }

/-- A record for alice carrying unparsable created and updated fields. -/
def issAliceBadDates : RawIssue :=
  { key := "T-4", summary := "alpha", assignee := some "alice"
    created := some "bad", updated := some "bad" }

/-- A terminal-status record assigned to alice. -/
def issDone : RawIssue :=
  { key := "T-5", summary := "alpha", status := some "Done", assignee := some "alice" }

/-- A record for bob with parsable dates (under emParse). -/
def issBobDates : RawIssue :=
  { key := "T-6", summary := "alpha", assignee := some "bob"
    created := some "d1", updated := some "d2" }

/-- Five records: three Open, two Done. -/
def issuesFive : List RawIssue := [issAlice, issAlice, issAlice, issDone, issDone]

/-- Ten minimal records. -/
def issuesTen : List RawIssue := List.replicate 10 issPlain

/-- The metrics row computed for bob in the c7 witness scenario. -/
def mBob : AssigneeMetrics :=
  { total_assigned := 1, open_issues := 1, avg_resolution_days := some 0, workload_score := 3 }

/-- The metrics row computed for alice in the c7 counterexample. -/
def mAliceNaN : AssigneeMetrics :=
  { total_assigned := 1, open_issues := 1, avg_resolution_days := none, workload_score := 3 }

theorem mem_insertSorted {α : Type} (lt : α → α → Bool) (a x : α) (l : List α) :
    x ∈ insertSorted lt a l ↔ x = a ∨ x ∈ l := by
  induction l with
  | nil => simp [insertSorted]
  | cons y ys ih =>
    simp only [insertSorted]
    split
    · simp [List.mem_cons]
    · simp only [List.mem_cons, ih]
      tauto

theorem mem_sortStable {α : Type} (lt : α → α → Bool) (x : α) (xs : List α) :
    x ∈ sortStable lt xs ↔ x ∈ xs := by
  suffices h : ∀ acc : List α,
      x ∈ xs.foldl (fun acc y => insertSorted lt y acc) acc ↔ x ∈ acc ∨ x ∈ xs by
    simpa [sortStable] using h []
  induction xs with
  | nil => intro acc; simp
  | cons y ys ih =>
    intro acc
    simp only [List.foldl_cons, ih, mem_insertSorted, List.mem_cons]
    tauto

theorem mem_uniqueFirst {α : Type} [DecidableEq α] (x : α) (xs : List α) :
    x ∈ uniqueFirst xs ↔ x ∈ xs := by
  suffices h : ∀ acc : List α,
      x ∈ xs.foldl (fun acc y => if y ∈ acc then acc else acc ++ [y]) acc
        ↔ x ∈ acc ∨ x ∈ xs by
    simpa [uniqueFirst] using h []
  induction xs with
  | nil => intro acc; simp
  | cons y ys ih =>
    intro acc
    rw [List.foldl_cons, ih]
    have hstep : x ∈ (if y ∈ acc then acc else acc ++ [y]) ↔ x ∈ acc ∨ x = y := by
      split
      · rename_i hy
        constructor
        · exact fun hx => Or.inl hx
        · rintro (hx | rfl) <;> [exact hx; exact hy]
      · simp [List.mem_append]
    rw [hstep, List.mem_cons]
    tauto

theorem mem_valueCounts {α : Type} [DecidableEq α] (s : α) (c : Nat) (xs : List α) :
    (s, c) ∈ valueCounts xs ↔ s ∈ xs ∧ c = xs.count s := by
  simp only [valueCounts, mem_sortStable, List.mem_map, mem_uniqueFirst]
  constructor
  · rintro ⟨k, hk, he⟩
    obtain ⟨h1, h2⟩ := Prod.mk.injEq .. ▸ he
    exact ⟨h1 ▸ hk, by rw [← h1, h2]⟩
  · rintro ⟨h1, h2⟩
    exact ⟨s, h1, by rw [h2]⟩

theorem prepare_rows_length (em : ExternalModels) (issues : List RawIssue) :
    (prepareDataframe em issues).rows.length = issues.length := by
  simp [prepareDataframe]

theorem prepare_res_none (em : ExternalModels) (issues : List RawIssue)
    (h : (prepareDataframe em issues).hasResolution = false) :
    ∀ r ∈ (prepareDataframe em issues).rows, r.resolution_days = none := by
  intro r hr
  simp only [prepareDataframe, PreparedDF.hasResolution] at h hr
  obtain ⟨i, hi, rfl⟩ := List.mem_map.mp hr
  simp [prepareRow, h]

theorem resolutionValues_hasResolution (em : ExternalModels) (issues : List RawIssue)
    (hv : resolutionValues (prepareDataframe em issues) ≠ []) :
    (prepareDataframe em issues).hasResolution = true := by
  by_contra h
  have h0 : (prepareDataframe em issues).hasResolution = false := by
    revert h; cases (prepareDataframe em issues).hasResolution <;> simp
  apply hv
  simp only [resolutionValues]
  refine List.filterMap_eq_nil_iff.mpr (fun r hr => ?_)
  rw [prepare_res_none em issues h0 r hr]
  rfl

theorem featureMatrix_length (df : PreparedDF) :
    (featureMatrix df).length = df.rows.length := by
  simp [featureMatrix]

theorem blockerLabels_length (df : PreparedDF) :
    (blockerLabels df).length = df.rows.length := by
  unfold blockerLabels
  split <;> simp

/-- C2: analyze_issues on the empty batch returns exactly the single
top-level map with the "No issues to analyze" error, without raising,
and no sub-analysis key is present (the error constructor carries none). -/
theorem c2_empty_batch (em : ExternalModels) (options : Option AnalysisOptions) :
    analyzeIssues em [] options = Except.ok (.topErr "No issues to analyze") := rfl

/-- C1 (code bug): on a non-empty batch in which every assignee is
missing, analyze_issues raises: _detect_bottlenecks divides the issue
count by the number of distinct non-Unassigned assignees, which is zero,
so the error is not confined to a sub-analysis and no result map is
returned, contradicting the propagation policy. -/
theorem c1_all_unassigned_crash :
    analyzeIssues emTest [issPlain] none
      = Except.error "ZeroDivisionError: float division by zero" := rfl

/-- C4 (code bug): with no created field anywhere the time pattern
analyzer does return the explicit error indicator, but on a batch whose
created values are all present and all unparsable it raises instead of
returning: every bucket dict is empty, and max() over the empty hourly
dict raises ValueError, failing the whole batch. -/
theorem c4_unparsable_dates_crash :
    analyzeTimePatterns emTest (prepareDataframe emTest [issPlain])
        = Except.ok (.tErr "No creation date data available")
    ∧ analyzeIssues emTest [issBadDate] none
        = Except.error "max() arg is an empty sequence" :=
  ⟨rfl, rfl⟩

/-- C3: the predictive risk model returns the insufficient-data error
dict whenever the batch has fewer than 10 rows, and on batches of 10 or
more rows whose blocker proxy label has a single class (all positive or
all negative) it returns the insufficient-class-diversity error instead
of training. -/
theorem c3_predict_guards (em : ExternalModels) (issues : List RawIssue) :
    (issues.length < 10 →
      predictPotentialBlockers (prepareDataframe em issues)
        = .pErr "Insufficient data for predictions")
    ∧ (10 ≤ issues.length →
        ((blockerLabels (prepareDataframe em issues)).all (fun b => b)
          ∨ (blockerLabels (prepareDataframe em issues)).all (fun b => !b)) →
        predictPotentialBlockers (prepareDataframe em issues)
          = .pErr "Insufficient class diversity for prediction") := by
  have hlen := prepare_rows_length em issues
  constructor
  · intro h
    unfold predictPotentialBlockers
    rw [if_pos (by omega)]
  · intro h10 hsingle
    unfold predictPotentialBlockers
    rw [if_neg (by omega)]
    have hxlen : (featureMatrix (prepareDataframe em issues)).length = issues.length := by
      rw [featureMatrix_length, hlen]
    have hcond : ((featureMatrix (prepareDataframe em issues)).isEmpty
        || decide ((featureMatrix (prepareDataframe em issues)).length < 5)) = false := by
      have hne : featureMatrix (prepareDataframe em issues) ≠ [] := by
        intro hnil
        rw [hnil] at hxlen
        simp at hxlen
        omega
      simp [List.isEmpty_eq_false.mpr hne, hxlen]
      omega
    rw [if_neg (by simp only [hcond]; exact Bool.false_ne_true)]
    have hany : ((blockerLabels (prepareDataframe em issues)).any (fun b => b)
        && (blockerLabels (prepareDataframe em issues)).any (fun b => !b)) = false := by
      rcases hsingle with hall | hall
      · rcases List.all_eq_true.mp hall with _
        have : (blockerLabels (prepareDataframe em issues)).any (fun b => !b) = false := by
          rw [List.any_eq_false]
          intro b hb
          have := List.all_eq_true.mp hall b hb
          simp at this
          simp [this]
        simp [this]
      · have : (blockerLabels (prepareDataframe em issues)).any (fun b => b) = false := by
          rw [List.any_eq_false]
          intro b hb
          have := List.all_eq_true.mp hall b hb
          simp at this
          simp [this]
        simp [this]
    rw [if_neg (by simp only [hany]; exact Bool.false_ne_true)]

/-- C3 witness: ten minimal rows (all labels false) hit the class
diversity error, and a single row hits the insufficient-data error. -/
theorem c3_witness :
    (10 ≤ issuesTen.length
      ∧ predictPotentialBlockers (prepareDataframe emTest issuesTen)
          = .pErr "Insufficient class diversity for prediction")
    ∧ ([issPlain].length < 10
      ∧ predictPotentialBlockers (prepareDataframe emTest [issPlain])
          = .pErr "Insufficient data for predictions") :=
  ⟨⟨by decide, (c3_predict_guards emTest issuesTen).2 (by decide) (by decide)⟩,
   ⟨by decide, (c3_predict_guards emTest [issPlain]).1 (by decide)⟩⟩

/-- C9 (implicit): on every table the normalizer produces, the anomaly
detector has at least two numeric features (the normalizer always
materializes age_days and the detector always appends summary_length),
so its insufficient-numeric-features error branch is unreachable. -/
theorem c9_features_always_sufficient (em : ExternalModels) (issues : List RawIssue) :
    2 ≤ (anomalyFeatures (prepareDataframe em issues)).length
    ∧ detectAnomalies em (prepareDataframe em issues)
        ≠ .aErr "Insufficient numeric features for anomaly detection" := by
  have hfeat : 2 ≤ (anomalyFeatures (prepareDataframe em issues)).length := by
    simp only [anomalyFeatures, prepareDataframe, if_true]
    split <;> simp
  refine ⟨hfeat, ?_⟩
  unfold detectAnomalies
  rw [if_neg (by omega)]
  split
  · decide
  · simp

/-- C9 witness: concrete instantiation of the theorem. -/
theorem c9_witness :
    2 ≤ (anomalyFeatures (prepareDataframe emTest [issPlain])).length
    ∧ detectAnomalies emTest (prepareDataframe emTest [issPlain])
        ≠ .aErr "Insufficient numeric features for anomaly detection" :=
  c9_features_always_sufficient emTest [issPlain]

theorem optFlag_predictive_char (options : Option AnalysisOptions) :
    optFlag options (fun o => o.enable_predictive_analytics) = true
      ↔ (options = none
         ∨ ∃ m, options = some m
             ∧ (m.enable_predictive_analytics = some true
                ∨ m.enable_predictive_analytics = none)) := by
  cases options with
  | none => simp [optFlag]
  | some m =>
    cases hm : m.enable_predictive_analytics with
    | none => simp [optFlag, hm]
    | some b => cases b <;> simp [optFlag, hm]

/-- C10 (implicit): the single enable_predictive_analytics option gates
both ML sub-analyses: whenever analyze_issues returns a result map on a
non-empty batch, predictive_insights is present iff anomaly_detection is,
and both are present exactly when the option is true or unset; no
separate option controls anomaly detection. -/
theorem c10_predictive_gate (em : ExternalModels) (issues : List RawIssue)
    (options : Option AnalysisOptions) (r : AnalysisResult)
    (h1 : issues ≠ []) (h2 : analyzeIssues em issues options = Except.ok r) :
    ∃ rep, r = .report rep
      ∧ (rep.predictive_insights.isSome ↔ rep.anomaly_detection.isSome)
      ∧ (rep.predictive_insights.isSome
          ↔ (options = none
             ∨ ∃ m, options = some m
                 ∧ (m.enable_predictive_analytics = some true
                    ∨ m.enable_predictive_analytics = none))) := by
  have he : issues.isEmpty = false := by
    cases issues with
    | nil => exact absurd rfl h1
    | cons a l => rfl
  unfold analyzeIssues at h2
  rw [if_neg (by rw [he]; exact Bool.false_ne_true)] at h2
  cases htime : analyzeTimePatterns em (prepareDataframe em issues) with
  | error e => rw [htime] at h2; exact absurd h2 (by simp)
  | ok time =>
    rw [htime] at h2
    cases hbot : (if optFlag options (fun o => o.enable_bottleneck_detection) then
        (detectBottlenecks (prepareDataframe em issues)).map some
      else Except.ok none) with
    | error e => rw [hbot] at h2; exact absurd h2 (by simp)
    | ok bottleneck =>
      rw [hbot] at h2
      injection h2 with h3
      refine ⟨assembleReport em (prepareDataframe em issues) options time bottleneck,
        h3.symm, ?_, ?_⟩
      · simp only [assembleReport]
        cases hflag : optFlag options (fun o => o.enable_predictive_analytics) <;>
          simp [hflag]
      · rw [← optFlag_predictive_char options]
        simp only [assembleReport]
        cases hflag : optFlag options (fun o => o.enable_predictive_analytics) <;>
          simp [hflag]

/-- C10 witness: a one-record batch with default options returns a
report in which both ML keys are present. -/
theorem c10_witness :
    ∃ r rep, analyzeIssues emTest [issAlice] none = Except.ok r
      ∧ r = .report rep
      ∧ (rep.predictive_insights.isSome ↔ rep.anomaly_detection.isSome)
      ∧ rep.predictive_insights.isSome := by
  obtain ⟨r, hr⟩ : ∃ r, analyzeIssues emTest [issAlice] none = Except.ok r := ⟨_, rfl⟩
  obtain ⟨rep, hrep, hiff, hgate⟩ :=
    c10_predictive_gate emTest [issAlice] none r (List.cons_ne_nil _ _) hr
  exact ⟨r, rep, hr, hrep, hiff, hgate.mpr (Or.inl rfl)⟩

/-- C6 counterexample: with every text scored exactly -0.05 the average
polarity is exactly -0.05, yet team_mood is "Concerning", not the
"Neutral" the claim requires at that boundary (the source tests
mean > -0.05, so equality falls through to "Concerning"). -/
theorem c6_counterexample :
    sentimentAvg emNeg (prepareDataframe emNeg [issPlain]) = some (-(1/20))
    ∧ (analyzeSentiment emNeg (prepareDataframe emNeg [issPlain])).team_mood = "Concerning"
    ∧ "Concerning" ≠ "Neutral" :=
  ⟨by with_unfolding_all rfl, by with_unfolding_all rfl, by decide⟩

/-- C6 amended: team_mood is "Good" exactly when the average polarity is
strictly greater than 0.05, "Concerning" exactly when it is less than or
equal to -0.05, and "Neutral" exactly when it lies in (-0.05, 0.05]; at
exactly -0.05 the mood is "Concerning", not "Neutral". -/
theorem c6_team_mood (em : ExternalModels) (df : PreparedDF) (a : ℚ)
    (h : sentimentAvg em df = some a) :
    ((analyzeSentiment em df).team_mood = "Good" ↔ 1/20 < a)
    ∧ ((analyzeSentiment em df).team_mood = "Concerning" ↔ a ≤ -(1/20))
    ∧ ((analyzeSentiment em df).team_mood = "Neutral" ↔ (-(1/20) < a ∧ a ≤ 1/20)) := by
  have hm0 : (analyzeSentiment em df).team_mood
      = (match sentimentAvg em df with
         | some v =>
             if (1 : ℚ)/20 < v then "Good" else if -(1/20) < v then "Neutral" else "Concerning"
         | none => "Concerning") := rfl
  have hm : (analyzeSentiment em df).team_mood
      = if (1 : ℚ)/20 < a then "Good" else if -(1/20) < a then "Neutral" else "Concerning" := by
    rw [hm0, h]
  rw [hm]
  rcases lt_or_le ((1 : ℚ)/20) a with h1 | h1
  · rw [if_pos h1]
    exact ⟨iff_of_true rfl h1,
      iff_of_false (by decide) (by intro hc; linarith),
      iff_of_false (by decide) (by rintro ⟨-, hc⟩; linarith)⟩
  · rw [if_neg (not_lt.mpr h1)]
    rcases lt_or_le (-((1 : ℚ)/20)) a with h2 | h2
    · rw [if_pos h2]
      exact ⟨iff_of_false (by decide) (not_lt.mpr h1),
        iff_of_false (by decide) (by intro hc; linarith),
        iff_of_true rfl ⟨h2, h1⟩⟩
    · rw [if_neg (not_lt.mpr h2)]
      exact ⟨iff_of_false (by decide) (by intro hc; linarith),
        iff_of_true rfl h2,
        iff_of_false (by decide) (by rintro ⟨hc, -⟩; linarith)⟩

/-- C6 witness: with the zero scorer the average is 0, inside the
Neutral band, and the amended rule yields mood "Neutral". -/
theorem c6_witness :
    (analyzeSentiment emTest (prepareDataframe emTest [issPlain])).team_mood = "Neutral" :=
  ((c6_team_mood emTest (prepareDataframe emTest [issPlain]) 0
      (by with_unfolding_all rfl)).2.2).mpr (by norm_num)

theorem round1_zero : round1 0 = 0 := by with_unfolding_all rfl

theorem assigneeResolutionValues_nil (em : ExternalModels) (issues : List RawIssue)
    (a : String) (h : (prepareDataframe em issues).hasResolution = false) :
    assigneeResolutionValues (prepareDataframe em issues) a = [] := by
  unfold assigneeResolutionValues
  refine List.filterMap_eq_nil_iff.mpr (fun r hr => ?_)
  have hrin : r ∈ (prepareDataframe em issues).rows := (List.mem_filter.mp hr).1
  rw [prepare_res_none em issues h r hrin]
  rfl

/-- C7 counterexample: a batch where the resolution_days column exists
(both date fields present) but every cell for alice is null: pandas
Series.mean over the all-NaN column is NaN, so avg_resolution_days is
null rather than the 0 the claim requires. -/
theorem c7_counterexample :
    (prepareDataframe emTest [issAliceBadDates]).hasResolution = true
    ∧ assigneeResolutionValues (prepareDataframe emTest [issAliceBadDates]) "alice" = []
    ∧ (analyzeTeamPerformance emTest (prepareDataframe emTest [issAliceBadDates])).individual_metrics
        = [("alice", mAliceNaN)]
    ∧ mAliceNaN.avg_resolution_days = none :=
  ⟨rfl, rfl, by with_unfolding_all rfl, rfl⟩

/-- C7 amended: for every assignee in individual_metrics (all of which
differ from Unassigned), avg_resolution_days equals the rounded mean of
that assignee\x27s non-null resolution_days when at least one exists;
it equals 0 when the table has no resolution_days column at all; and it
is null (NaN), not 0, when the column exists but the assignee has no
non-null value. -/
theorem c7_assignee_avg_resolution (em : ExternalModels) (issues : List RawIssue)
    (a : String) (m : AssigneeMetrics)
    (h : (a, m) ∈ (analyzeTeamPerformance em (prepareDataframe em issues)).individual_metrics) :
    (assigneeResolutionValues (prepareDataframe em issues) a ≠ [] →
      m.avg_resolution_days
        = some (round1 (mean (assigneeResolutionValues (prepareDataframe em issues) a))))
    ∧ ((prepareDataframe em issues).hasResolution = false → m.avg_resolution_days = some 0)
    ∧ ((prepareDataframe em issues).hasResolution = true →
        assigneeResolutionValues (prepareDataframe em issues) a = [] →
        m.avg_resolution_days = none) := by
  have h2 : (a, m) ∈ ((uniqueFirst ((prepareDataframe em issues).rows.map
      (fun r => r.assignee))).filter (fun x => x ≠ "Unassigned")).map
        (fun x => (x, assigneeMetricsFor (prepareDataframe em issues) x)) := h
  obtain ⟨x, hx, he⟩ := List.mem_map.mp h2
  obtain ⟨he1, he2⟩ := Prod.mk.injEq .. ▸ he
  have hm : m = assigneeMetricsFor (prepareDataframe em issues) a := by rw [← he2, he1]
  refine ⟨?_, ?_, ?_⟩
  · intro hne
    have hres : (prepareDataframe em issues).hasResolution = true := by
      cases hhas : (prepareDataframe em issues).hasResolution with
      | true => rfl
      | false => exact absurd (assigneeResolutionValues_nil em issues a hhas) hne
    rw [hm]
    simp [assigneeMetricsFor, hres, meanOpt, List.isEmpty_eq_false.mpr hne, mean]
  · intro hfalse
    rw [hm]
    simp [assigneeMetricsFor, hfalse, round1_zero]
  · intro htrue hnil
    rw [hm]
    simp [assigneeMetricsFor, htrue, hnil, meanOpt]

/-- C7 witness: bob has one resolved row (0 days), and the rounded mean
over his non-null values is reported. -/
theorem c7_witness :
    ("bob", mBob)
        ∈ (analyzeTeamPerformance emParse (prepareDataframe emParse [issBobDates])).individual_metrics
    ∧ mBob.avg_resolution_days
        = some (round1 (mean (assigneeResolutionValues (prepareDataframe emParse [issBobDates]) "bob"))) := by
  have hmem : ("bob", mBob)
      ∈ (analyzeTeamPerformance emParse (prepareDataframe emParse [issBobDates])).individual_metrics := by
    with_unfolding_all decide
  exact ⟨hmem,
    (c7_assignee_avg_resolution emParse [issBobDates] "bob" _ hmem).1
      (by with_unfolding_all decide)⟩

theorem zip_map_snd {α β : Type} (f : α → β) (l : List α) :
    ∀ p ∈ l.zip (l.map f), p.2 = f p.1 := by
  induction l with
  | nil => intro p hp; simp at hp
  | cons x xs ih =>
    intro p hp
    rw [List.map_cons, List.zip_cons_cons] at hp
    rcases List.mem_cons.mp hp with h | h
    · rw [h]
    · exact ih p h

/-- C8: after normalization every row has non-null status, priority,
assignee and description, with the documented defaults substituted for
missing values; resolution_days may remain null, and every null
resolution_days cell is excluded (not coerced to 0) from the
resolution-time statistics: avg and median are computed over exactly the
non-null values and are 0 when none exist. -/
theorem c8_normalization_and_exclusion (em : ExternalModels) (issues : List RawIssue) :
    (∀ p ∈ issues.zip (prepareDataframe em issues).rows,
        p.2.status = p.1.status.getD "Open"
        ∧ p.2.priority = p.1.priority.getD "Medium"
        ∧ p.2.assignee = p.1.assignee.getD "Unassigned"
        ∧ p.2.description = p.1.description.getD "")
    ∧ (resolutionValues (prepareDataframe em issues) = [] →
        (calculateBasicMetrics (prepareDataframe em issues)).avg_resolution_days = 0
        ∧ (calculateBasicMetrics (prepareDataframe em issues)).median_resolution_days = 0)
    ∧ (resolutionValues (prepareDataframe em issues) ≠ [] →
        (calculateBasicMetrics (prepareDataframe em issues)).avg_resolution_days
          = round1 (mean (resolutionValues (prepareDataframe em issues)))
        ∧ (calculateBasicMetrics (prepareDataframe em issues)).median_resolution_days
          = round1 ((quantileAt (1/2) (resolutionValues (prepareDataframe em issues))).getD 0)) := by
  refine ⟨?_, ?_, ?_⟩
  · intro p hp
    have hp2 : p ∈ issues.zip (issues.map
        (prepareRow em (issues.any (fun i => i.created.isSome))
          (issues.any (fun i => i.updated.isSome)))) := hp
    have h2 := zip_map_snd _ issues p hp2
    rw [h2]
    exact ⟨rfl, rfl, rfl, rfl⟩
  · intro hnil
    cases hrows : (prepareDataframe em issues).rows.isEmpty with
    | true => constructor <;> simp [calculateBasicMetrics, hrows]
    | false => constructor <;> simp [calculateBasicMetrics, hrows, hnil, round1_zero]
  · intro hne
    have hres := resolutionValues_hasResolution em issues hne
    have hrows : (prepareDataframe em issues).rows.isEmpty = false := by
      rw [List.isEmpty_eq_false]
      intro hnil
      apply hne
      unfold resolutionValues
      rw [hnil]
      rfl
    have hve : (resolutionValues (prepareDataframe em issues)).isEmpty = false :=
      List.isEmpty_eq_false.mpr hne
    constructor <;> simp [calculateBasicMetrics, hrows, hres, hve, mean]

/-- C8 witness: a record with no optional fields gets the documented
defaults, and with no resolved rows both statistics are 0. -/
theorem c8_witness :
    ((prepareRow emTest false false issPlain).status = "Open"
      ∧ (prepareRow emTest false false issPlain).priority = "Medium"
      ∧ (prepareRow emTest false false issPlain).assignee = "Unassigned"
      ∧ (prepareRow emTest false false issPlain).description = "")
    ∧ (calculateBasicMetrics (prepareDataframe emTest [issPlain])).avg_resolution_days = 0
    ∧ (calculateBasicMetrics (prepareDataframe emTest [issPlain])).median_resolution_days = 0 :=
  ⟨(c8_normalization_and_exclusion emTest [issPlain]).1
      (issPlain, prepareRow emTest false false issPlain) (by decide),
   (c8_normalization_and_exclusion emTest [issPlain]).2.1 rfl⟩

theorem statusFlag_isSome_iff (total : Nat) (s : String) (c : Nat) :
    (statusFlag total (s, c)).isSome = true
      ↔ (s ∉ (["Done", "Closed", "Resolved"] : List String)
         ∧ (2 : ℚ)/5 < (c : ℚ) / (total : ℚ)) := by
  unfold statusFlag
  split
  · rename_i hcond
    obtain ⟨h40, hterm⟩ := hcond
    simp only [Option.isSome_some, true_iff]
    exact ⟨hterm, by linarith⟩
  · rename_i hcond
    simp only [Option.isSome_none, Bool.false_eq_true, false_iff]
    rintro ⟨hterm, hshare⟩
    exact hcond ⟨by linarith, hterm⟩

theorem statusFlag_severity (total : Nat) (s : String) (c : Nat) (f : Flag)
    (hf : statusFlag total (s, c) = some f) :
    f.type = "Status Bottleneck"
    ∧ f.affected_count = c
    ∧ (f.severity = "High" ↔ (3 : ℚ)/5 < (c : ℚ) / (total : ℚ))
    ∧ (f.severity = "Medium" ↔ ¬ ((3 : ℚ)/5 < (c : ℚ) / (total : ℚ))) := by
  unfold statusFlag at hf
  split at hf
  · injection hf with hf
    have hsev : f.severity = if ((c : ℚ) / (total : ℚ)) * 100 > 60 then "High" else "Medium" := by
      rw [← hf]
    have htyp : f.type = "Status Bottleneck" := by rw [← hf]
    have hcnt : f.affected_count = c := by rw [← hf]
    refine ⟨htyp, hcnt, ?_, ?_⟩
    · rw [hsev]
      by_cases h60 : ((c : ℚ) / (total : ℚ)) * 100 > 60
      · rw [if_pos h60]
        exact iff_of_true rfl (by linarith)
      · rw [if_neg h60]
        exact iff_of_false (by decide) (fun hc => h60 (by linarith))
    · rw [hsev]
      by_cases h60 : ((c : ℚ) / (total : ℚ)) * 100 > 60
      · rw [if_pos h60]
        exact iff_of_false (by decide) (fun hc => hc (by linarith))
      · rw [if_neg h60]
        exact iff_of_true rfl (fun hc => h60 (by linarith))
  · exact absurd hf (by simp)

theorem assigneeFlag_type (avgPer : ℚ) (p : String × Nat) (f : Flag)
    (h : assigneeFlag avgPer p = some f) : f.type = "Assignee Overload" := by
  unfold assigneeFlag at h
  split at h
  · injection h with h
    subst h
    rfl
  · exact absurd h (by simp)

theorem agingFlags_type (df : PreparedDF) (f : Flag) (h : f ∈ agingFlags df) :
    f.type = "Aging Issues" := by
  simp only [agingFlags] at h
  repeat split at h
  all_goals first
    | rw [List.mem_singleton.mp h]
    | simp at h

theorem highPriorityFlags_type (df : PreparedDF) (f : Flag) (h : f ∈ highPriorityFlags df) :
    f.type = "High Priority Delays" := by
  simp only [highPriorityFlags] at h
  repeat split at h
  all_goals first
    | rw [List.mem_singleton.mp h]
    | simp at h

theorem detectBottlenecks_ok (df : PreparedDF)
    (h1 : df.rows.any (fun r => r.assignee ≠ "Unassigned") = true) :
    ∃ res, detectBottlenecks df = Except.ok res
      ∧ res.bottlenecks_detected = allBottleneckFlags df := by
  obtain ⟨r, hr, hp⟩ := List.any_eq_true.mp h1
  have hfil : r.assignee ∈ (uniqueFirst (df.rows.map (fun x => x.assignee))).filter
      (fun a => a ≠ "Unassigned") := by
    rw [List.mem_filter]
    exact ⟨(mem_uniqueFirst _ _).mpr (List.mem_map.mpr ⟨r, hr, rfl⟩), hp⟩
  have hb : ((uniqueFirst (df.rows.map (fun x => x.assignee))).filter
      (fun a => a ≠ "Unassigned")).isEmpty = false :=
    List.isEmpty_eq_false.mpr (List.ne_nil_of_mem hfil)
  refine ⟨{ bottlenecks_detected := allBottleneckFlags df
            bottleneck_count := (allBottleneckFlags df).length
            critical_count :=
              ((allBottleneckFlags df).filter (fun b => b.severity = "Critical")).length
            recommendations := generateBottleneckRecommendations (allBottleneckFlags df) },
    ?_, rfl⟩
  unfold detectBottlenecks
  rw [if_neg (by rw [hb]; exact Bool.false_ne_true)]

/-- C5: on every batch with at least one assigned issue (so the detector
returns; see C1 for the unassigned crash), a Status Bottleneck flag for a
status present in the batch exists if and only if that status is not
Done/Closed/Resolved and its share of all issues strictly exceeds 40%
(exactly 40% does not fire); the emitted flag has severity "High"
exactly when the share strictly exceeds 60% and "Medium" otherwise; and
every Status Bottleneck flag in the result arises from this rule. -/
theorem c5_status_bottleneck_rule (em : ExternalModels) (issues : List RawIssue)
    (s : String) (c : Nat)
    (h1 : (prepareDataframe em issues).rows.any (fun r => r.assignee ≠ "Unassigned") = true)
    (h2 : (s, c) ∈ valueCounts ((prepareDataframe em issues).rows.map (fun r => r.status))) :
    ∃ res, detectBottlenecks (prepareDataframe em issues) = Except.ok res
      ∧ ((statusFlag (prepareDataframe em issues).rows.length (s, c)).isSome = true
          ↔ (s ∉ (["Done", "Closed", "Resolved"] : List String)
             ∧ (2 : ℚ)/5 < (c : ℚ) / ((prepareDataframe em issues).rows.length : ℚ)))
      ∧ (∀ f, statusFlag (prepareDataframe em issues).rows.length (s, c) = some f →
          f ∈ res.bottlenecks_detected
          ∧ (f.severity = "High"
              ↔ (3 : ℚ)/5 < (c : ℚ) / ((prepareDataframe em issues).rows.length : ℚ))
          ∧ (f.severity = "Medium"
              ↔ ¬ ((3 : ℚ)/5 < (c : ℚ) / ((prepareDataframe em issues).rows.length : ℚ))))
      ∧ (∀ f ∈ res.bottlenecks_detected, f.type = "Status Bottleneck" →
          ∃ p, p ∈ valueCounts ((prepareDataframe em issues).rows.map (fun r => r.status))
            ∧ statusFlag (prepareDataframe em issues).rows.length p = some f) := by
  obtain ⟨res, hok, hlist⟩ := detectBottlenecks_ok (prepareDataframe em issues) h1
  refine ⟨res, hok, statusFlag_isSome_iff _ _ _, ?_, ?_⟩
  · intro f hf
    have hsev := statusFlag_severity _ _ _ f hf
    refine ⟨?_, hsev.2.2.1, hsev.2.2.2⟩
    rw [hlist]
    unfold allBottleneckFlags
    apply List.mem_append_left
    apply List.mem_append_left
    apply List.mem_append_left
    exact List.mem_filterMap.mpr ⟨(s, c), h2, hf⟩
  · intro f hfmem htype
    rw [hlist] at hfmem
    unfold allBottleneckFlags at hfmem
    rcases List.mem_append.mp hfmem with hA | hHP
    · rcases List.mem_append.mp hA with hB | hAging
      · rcases List.mem_append.mp hB with hStatus | hAssignee
        · exact List.mem_filterMap.mp hStatus
        · obtain ⟨p, hp, hps⟩ := List.mem_filterMap.mp hAssignee
          have ht := assigneeFlag_type _ _ _ hps
          rw [htype] at ht
          exact absurd ht (by decide)
      · have ht := agingFlags_type _ _ hAging
        rw [htype] at ht
        exact absurd ht (by decide)
    · have ht := highPriorityFlags_type _ _ hHP
      rw [htype] at ht
      exact absurd ht (by decide)

/-- C5 witness: in a five-row batch with three Open and two Done issues
the Open share is 60%, the rule fires, and the flag is in the result. -/
theorem c5_witness :
    ∃ res, detectBottlenecks (prepareDataframe emTest issuesFive) = Except.ok res
      ∧ ∃ f, statusFlag (prepareDataframe emTest issuesFive).rows.length ("Open", 3) = some f
          ∧ f ∈ res.bottlenecks_detected := by
  obtain ⟨res, hok, hiff, hmem, -⟩ :=
    c5_status_bottleneck_rule emTest issuesFive "Open" 3 (by decide) (by decide)
  have hsome : (statusFlag (prepareDataframe emTest issuesFive).rows.length
      ("Open", 3)).isSome = true := by
    apply hiff.mpr
    refine ⟨by decide, ?_⟩
    have h5 : (prepareDataframe emTest issuesFive).rows.length = 5 := by decide
    rw [h5]
    norm_num
  obtain ⟨f, hf⟩ := Option.isSome_iff_exists.mp hsome
  exact ⟨res, hok, f, hf, (hmem f hf).1⟩

end JiraAnalytics
